import Mathlib

/-!
Shallow embedding of the booking–payment reconciliation subsystem of the
Personal-Training-Booking-System repository.

Embedded source files:
* `backend/Controllers/bookingController.js` — `getCheckoutSession` (the
  checkout-intent issuer) and `handleStripeWebhook` (the webhook verifier
  and reconciler).
* `backend/models/BookingSchema.js` — the Mongoose `bookingSchema`, whose
  declared paths are exactly `trainer`, `user`, `ticketPrice`,
  `bookingDate`, `status`, `isPaid` (plus timestamps).  Mongoose runs in
  strict mode by default, so constructor fields outside the schema
  (`sessionId`, `timeSlot`) are silently dropped at save time.
* `frontend/src/pages/Trainer/SidePanel.jsx` — `getAvailableDays`,
  `isDateAvailable`, `getAvailableDates`.

Conventions of the embedding:
* JavaScript strings are `String`; optional / possibly-`undefined` values
  are `Option String`; the JS truthiness test `!x` on a string-valued
  expression is `strFalsy` (false for `undefined` and for `""`).
* Mongo ObjectIds are their 24-hex-character string form.
* Calendar dates (at the day granularity used by the availability code)
  are `Nat` day indices counted from 1970-01-01, which was a Thursday.
* `new Date(string)` parsing plus the Mongoose `Date` cast is an explicit
  parameter `parseDate : String → Option Int` (an epoch-millisecond value
  on success, `none` when the string yields an Invalid Date).
* `stripe.webhooks.constructEvent` is an explicit parameter
  `verify : String → Option String → Option StripeEvent` returning the
  parsed event exactly when the signature header authenticates the raw
  body, and `none` (the thrown error) otherwise.
-/

/-- JS truthiness of a possibly-undefined string: `!x` is true when `x`
is `undefined` or the empty string. -/
def strFalsy : Option String → Bool
  | none => true
  | some s => s = ""

/-- A 24-character hex string, the form of `ObjectId.toString()` that the
Mongoose `ObjectId` cast accepts. -/
def isValidObjectId (s : String) : Bool :=
  s.length = 24 && s.toList.all (fun c =>
    c.isDigit || (97 ≤ c.toNat && c.toNat ≤ 102) || (65 ≤ c.toNat && c.toNat ≤ 70))

/-- Rounding as `Math.round` does it on a rational input: round half
toward positive infinity, i.e. `⌊x + 1/2⌋`. -/
def jsRound (x : ℚ) : ℤ := ⌊x + (1 : ℚ) / 2⌋

/-- Decimal rendering of `cents / 100` the way JS
`(cents / 100).toString()` prints it for a nonnegative integer number of
cents: shortest decimal, trailing zeros of the fraction stripped. -/
def natCentsToString (n : Nat) : String :=
  let q := n / 100
  let r := n % 100
  if r = 0 then toString q
  else if r % 10 = 0 then toString q ++ "." ++ toString (r / 10)
  else if r < 10 then toString q ++ ".0" ++ toString r
  else toString q ++ "." ++ toString r

/-- Rendering of `(amount / 100).toString()` for an integer
`amount_total` in cents. -/
def centsToJsString (a : ℤ) : String :=
  if a < 0 then "-" ++ natCentsToString a.natAbs else natCentsToString a.natAbs

/-- The `timeSlot` object sent by the frontend in the checkout request
body: `{day, startingTime, endingTime}`, each possibly absent. -/
structure TimeSlotBody where
  day : Option String
  startingTime : Option String
  endingTime : Option String
deriving Repr, DecidableEq

/-- The `metadata` object the issuer attaches to the Stripe session and
the webhook later reads back.  Stripe drops keys whose value is
`undefined`, hence every field is optional. -/
structure SessionMetadata where
  trainerId : Option String
  userId : Option String
  bookingDate : Option String
  timeSlotDay : Option String
  timeSlotStart : Option String
  timeSlotEnd : Option String
deriving Repr, DecidableEq

/-- The part of a completed Stripe checkout session that
`handleStripeWebhook` reads: `event.data.object`. -/
structure StripeSession where
  id : String
  amount_total : ℤ
  metadata : SessionMetadata
deriving Repr, DecidableEq

/-- A Stripe webhook event as produced by `constructEvent`: its `type`
and its payload session. -/
structure StripeEvent where
  type : String
  session : StripeSession
deriving Repr, DecidableEq

/-- A persisted Booking document.  Its fields are exactly the paths
declared by `bookingSchema` in `backend/models/BookingSchema.js`:
`trainer`, `user`, `ticketPrice` (a `String`), `bookingDate` (a `Date`,
kept as epoch milliseconds), `status`, `isPaid`.  There is no
`sessionId` path and no `timeSlot` path. -/
structure BookingRow where
  trainer : String
  user : String
  ticketPrice : String
  bookingDate : ℤ
  status : String
  isPaid : Bool
deriving Repr, DecidableEq

/-- The argument object of `new Booking({...})` as built by the webhook
handler, before Mongoose strips it down to the schema paths.  It still
carries `sessionId` and the `timeSlot` subobject. -/
structure BookingInput where
  trainer : Option String
  user : Option String
  ticketPrice : String
  bookingDate : Option String
  timeSlotDay : Option String
  timeSlotStart : Option String
  timeSlotEnd : Option String
  status : String
  isPaid : Bool
  sessionId : String
deriving Repr, DecidableEq

/-- The `status` enum of `bookingSchema`. -/
def statusEnum : List String := ["pending", "approved", "cancelled"]

/-- Model of `booking.save()`: Mongoose validates the document against
`bookingSchema` (strict mode) and either persists a row holding exactly
the schema paths or throws.  Validation embedded here: `trainer` and
`user` are required and must cast to `ObjectId`; `ticketPrice` is a
required string (Mongoose `required` rejects the empty string);
`bookingDate` is required and must cast to a valid `Date`; `status` must
lie in the enum.  Fields outside the schema (`sessionId`, `timeSlot.*`)
are dropped.  Returns `none` when validation throws. -/
def saveBooking (parseDate : String → Option ℤ) (inp : BookingInput) :
    Option BookingRow :=
  match inp.trainer, inp.user, inp.bookingDate with
  | some t, some u, some ds =>
    if isValidObjectId t && isValidObjectId u && !(inp.ticketPrice = "")
        && statusEnum.contains inp.status then
      match parseDate ds with
      | some ms =>
        some { trainer := t, user := u, ticketPrice := inp.ticketPrice,
               bookingDate := ms, status := inp.status, isPaid := inp.isPaid }
      | none => none
    else none
  | _, _, _ => none

/-- The `new Booking({...})` argument the webhook builds from a session
(`bookingController.js` lines 153–169): metadata fields, the captured
amount as `(session.amount_total / 100).toString()`, the status string
`approved`, `isPaid: true`, and the session id. -/
def mkBookingInput (s : StripeSession) : BookingInput :=
  { trainer := s.metadata.trainerId
    user := s.metadata.userId
    ticketPrice := centsToJsString s.amount_total
    bookingDate := s.metadata.bookingDate
    timeSlotDay := s.metadata.timeSlotDay
    timeSlotStart := s.metadata.timeSlotStart
    timeSlotEnd := s.metadata.timeSlotEnd
    status := "approved"
    isPaid := true
    sessionId := s.id }

/-- Outcome of one webhook invocation: the HTTP status sent, whether the
body was the acknowledgement `{received: true}`, and the Booking
collection afterwards. -/
structure WebhookResult where
  status : Nat
  received : Bool
  bookings : List BookingRow
deriving Repr, DecidableEq

/-- The body of `handleStripeWebhook` after signature verification
succeeded (`bookingController.js` lines 142–180).  A
`checkout.session.completed` event with truthy `metadata.bookingDate`
and `metadata.timeSlotDay` is saved (insert-only append; a failed save
throws into the catch block, HTTP 500); any other event type is
acknowledged untouched with `{received: true}`. -/
def processEvent (parseDate : String → Option ℤ) (event : StripeEvent)
    (bookings : List BookingRow) : WebhookResult :=
  if event.type = "checkout.session.completed" then
    if strFalsy event.session.metadata.bookingDate
        || strFalsy event.session.metadata.timeSlotDay then
      { status := 400, received := false, bookings := bookings }
    else
      match saveBooking parseDate (mkBookingInput event.session) with
      | some row =>
        { status := 200, received := true, bookings := bookings ++ [row] }
      | none => { status := 500, received := false, bookings := bookings }
  else
    { status := 200, received := true, bookings := bookings }

/-- The full `handleStripeWebhook` (`bookingController.js` lines 126–181):
`stripe.webhooks.constructEvent(req.body, sig, secret)` is the `verify`
parameter; on its failure the handler returns HTTP 400 without touching
the Booking collection; on success it processes the event. -/
def handleStripeWebhook (verify : String → Option String → Option StripeEvent)
    (parseDate : String → Option ℤ) (body : String) (sig : Option String)
    (bookings : List BookingRow) : WebhookResult :=
  match verify body sig with
  | none => { status := 400, received := false, bookings := bookings }
  | some event => processEvent parseDate event bookings

/-- Delivering the same raw webhook request `n` times in sequence,
threading the Booking collection through. -/
def replayWebhook (verify : String → Option String → Option StripeEvent)
    (parseDate : String → Option ℤ) (body : String) (sig : Option String) :
    Nat → List BookingRow → List BookingRow
  | 0, bs => bs
  | n + 1, bs =>
    replayWebhook verify parseDate body sig n
      (handleStripeWebhook verify parseDate body sig bs).bookings

/-- A trainer record as read by the issuer: Mongo id (string form),
name, current session rate `ticketPrice`, optional photo, and the
recurring weekly `timeSlots` list shown on the trainer page. -/
structure TrainerRec where
  id : String
  name : String
  ticketPrice : ℚ
  photo : Option String
  timeSlots : List TimeSlotBody
deriving Repr, DecidableEq

/-- A user record as read by the issuer: Mongo id and email. -/
structure UserRec where
  id : String
  email : String
deriving Repr, DecidableEq

/-- The persistent store the controller touches: the `Trainer`, `User`
and `Booking` collections. -/
structure DB where
  trainers : List TrainerRec
  users : List UserRec
  bookings : List BookingRow
deriving Repr, DecidableEq

/-- Lookup `Trainer.findById`. -/
def findTrainer (db : DB) (tid : String) : Option TrainerRec :=
  db.trainers.find? (fun t => t.id = tid)

/-- Lookup `User.findById`. -/
def findUser (db : DB) (uid : String) : Option UserRec :=
  db.users.find? (fun u => u.id = uid)

/-- The checkout request body `{timeSlot, bookingDate}`. -/
structure CheckoutBody where
  timeSlot : Option TimeSlotBody
  bookingDate : Option String
deriving Repr, DecidableEq

/-- The parameters `getCheckoutSession` passes to
`stripe.checkout.sessions.create` (the fields the claims depend on):
customer email, `client_reference_id`, the booking metadata, and the
`unit_amount` of the single line item in cents,
`Math.round(trainer.ticketPrice * 100)`, with `quantity: 1`. -/
structure SessionParams where
  customer_email : String
  client_reference_id : String
  metadata : SessionMetadata
  unit_amount : ℤ
  quantity : Nat
deriving Repr, DecidableEq

/-- Builds the Stripe session parameters from the looked-up trainer and
user and the validated request body (`bookingController.js` lines
55–93). -/
def mkSessionParams (t : TrainerRec) (u : UserRec) (ts : TimeSlotBody)
    (bookingDate : String) : SessionParams :=
  { customer_email := u.email
    client_reference_id := t.id
    metadata :=
      { trainerId := some t.id
        userId := some u.id
        bookingDate := some bookingDate
        timeSlotDay := ts.day
        timeSlotStart := ts.startingTime
        timeSlotEnd := ts.endingTime }
    unit_amount := jsRound (t.ticketPrice * 100)
    quantity := 1 }

/-- What `stripe.checkout.sessions.create` returns on success: the id
of the session and its redirect URL. -/
structure CreatedSession where
  id : String
  url : String
deriving Repr, DecidableEq

/-- Outcome of one `getCheckoutSession` invocation: HTTP status,
`success` flag, and the returned `session.id` / `session.url` when
present. -/
structure IssuerResult where
  status : Nat
  success : Bool
  sessionId : Option String
  sessionUrl : Option String
deriving Repr, DecidableEq

/-- The issuer `getCheckoutSession` (`bookingController.js` lines 28–112).  The
payment provider call is the parameter `createSession` (`none` models
the upstream call throwing, caught as HTTP 500).  Order of checks as in
the source: trainer/user lookup (404), presence of `timeSlot` and
`bookingDate` in the body (400), then the provider call (200 on
success).  The function performs no write: the resulting `DB` is
returned alongside the response. -/
def getCheckoutSession (createSession : SessionParams → Option CreatedSession)
    (db : DB) (trainerId reqUserId : String) (body : CheckoutBody) :
    IssuerResult × DB :=
  match findTrainer db trainerId, findUser db reqUserId with
  | some t, some u =>
    if body.timeSlot.isNone || strFalsy body.bookingDate then
      ({ status := 400, success := false, sessionId := none,
         sessionUrl := none }, db)
    else
      match body.timeSlot, body.bookingDate with
      | some ts, some bd =>
        match createSession (mkSessionParams t u ts bd) with
        | some c =>
          ({ status := 200, success := true, sessionId := some c.id,
             sessionUrl := some c.url }, db)
        | none =>
          ({ status := 500, success := false, sessionId := none,
             sessionUrl := none }, db)
      | _, _ =>
        ({ status := 400, success := false, sessionId := none,
           sessionUrl := none }, db)
  | _, _ =>
    ({ status := 404, success := false, sessionId := none,
       sessionUrl := none }, db)

/-- Models the payment provider: the completed checkout session that a
webhook later delivers for a session created with `params` carries the
same metadata and `amount_total = unit_amount * quantity` (single
line item, no discounts or tax in this integration). -/
def stripeSessionOf (params : SessionParams) (sid : String) : StripeSession :=
  { id := sid
    amount_total := params.unit_amount * params.quantity
    metadata := params.metadata }

/-- JS `toLowerCase` on the ASCII day names the component handles:
character-wise lowering. -/
def jsToLower (s : String) : String := String.mk (s.data.map Char.toLower)

/-- Frontend `getAvailableDays` (`SidePanel.jsx` lines 50–55): lowercase the
`day` of each slot, dropping `undefined` and empty values
(`filter(Boolean)`). -/
def getAvailableDays (timeSlots : List TimeSlotBody) : List String :=
  ((timeSlots.filterMap (fun s => s.day)).map jsToLower).filter
    (fun d => !(d = ""))

/-- Lowercase English weekday name of a day index counted from
1970-01-01 (a Thursday), as the source obtains from
`toLocaleDateString` with the long weekday option, lowercased. -/
def weekdayName (d : Nat) : String :=
  ["sunday", "monday", "tuesday", "wednesday", "thursday", "friday",
   "saturday"].getD ((d + 4) % 7) ""

/-- Frontend `isDateAvailable` (`SidePanel.jsx` lines 66–75): false when
the trainer has no usable days, otherwise tests whether the weekday name
of the date is among them.  No window check. -/
def isDateAvailable (timeSlots : List TimeSlotBody) (d : Nat) : Bool :=
  let availableDays := getAvailableDays timeSlots
  if availableDays.isEmpty then false
  else availableDays.contains (weekdayName d)

/-- Concrete ObjectId string of the sample trainer. -/
def oidTrainer : String := "aaaaaaaaaaaaaaaaaaaaaaaa"

/-- Concrete ObjectId string of the sample user. -/
def oidUser : String := "bbbbbbbbbbbbbbbbbbbbbbbb"

/-- Sample complete checkout metadata. -/
def sampleMetadata : SessionMetadata :=
  { trainerId := some oidTrainer
    userId := some oidUser
    bookingDate := some "2026-01-05"
    timeSlotDay := some "monday"
    timeSlotStart := some "09:00"
    timeSlotEnd := some "10:00" }

/-- A completed checkout session. -/
def sampleSession1 : StripeSession :=
  { id := "cs_live_001", amount_total := 9950, metadata := sampleMetadata }

/-- A second completed checkout session: same booking metadata and
amount, different external session id. -/
def sampleSession2 : StripeSession :=
  { id := "cs_live_002", amount_total := 9950, metadata := sampleMetadata }

/-- Payment-success event for the first session. -/
def sampleEvent1 : StripeEvent :=
  { type := "checkout.session.completed", session := sampleSession1 }

/-- Payment-success event for the second session. -/
def sampleEvent2 : StripeEvent :=
  { type := "checkout.session.completed", session := sampleSession2 }

/-- An authenticated event of a non-success type. -/
def sampleOtherEvent : StripeEvent :=
  { type := "payment_intent.created", session := sampleSession1 }

/-- Sample date parser: recognises the one date the fixtures use. -/
def sampleParseDate : String → Option ℤ :=
  fun s => if s = "2026-01-05" then some 1767571200000 else none

/-- The signature header value the sample verifier accepts. -/
def goodSig : String := "t=1712external,v1=feedcafe"

/-- Checkout metadata with the required `timeSlotDay` missing. -/
def badMetadata : SessionMetadata :=
  { trainerId := some oidTrainer
    userId := some oidUser
    bookingDate := some "2026-01-05"
    timeSlotDay := none
    timeSlotStart := none
    timeSlotEnd := none }

/-- A completed session whose metadata is missing a required field. -/
def badSession : StripeSession :=
  { id := "cs_live_003", amount_total := 9950, metadata := badMetadata }

/-- Payment-success event with malformed metadata. -/
def badEvent : StripeEvent :=
  { type := "checkout.session.completed", session := badSession }

/-- Sample signature verifier: models `constructEvent` with the shared
secret fixed; it authenticates four known raw bodies under the one
valid signature header and rejects everything else. -/
def sampleVerify : String → Option String → Option StripeEvent :=
  fun body sig =>
    if sig = some goodSig then
      if body = "raw-body-1" then some sampleEvent1
      else if body = "raw-body-2" then some sampleEvent2
      else if body = "raw-body-3" then some sampleOtherEvent
      else if body = "raw-body-4" then some badEvent
      else none
    else none

/-- The Booking row that saving either sample session produces. -/
def sampleRow : BookingRow :=
  { trainer := oidTrainer, user := oidUser, ticketPrice := "99.5",
    bookingDate := 1767571200000, status := "approved", isPaid := true }

/-- A recurring Monday slot. -/
def mondaySlot : TimeSlotBody :=
  { day := some "monday", startingTime := some "09:00",
    endingTime := some "10:00" }

/-- A Friday slot that the sample trainer does not offer. -/
def fridaySlot : TimeSlotBody :=
  { day := some "friday", startingTime := some "22:00",
    endingTime := some "23:00" }

/-- Sample trainer: rate 99.5, available Mondays only. -/
def sampleTrainer : TrainerRec :=
  { id := oidTrainer, name := "Alex Example", ticketPrice := (199 : ℚ) / 2,
    photo := none, timeSlots := [mondaySlot] }

/-- Sample user. -/
def sampleUser : UserRec :=
  { id := oidUser, email := "client@example.test" }

/-- Sample database: one trainer, one user, empty Booking collection. -/
def sampleDB : DB :=
  { trainers := [sampleTrainer], users := [sampleUser], bookings := [] }

/-- A checkout request whose slot the trainer does not offer and whose
date lies in the past. -/
def invalidCheckoutBody : CheckoutBody :=
  { timeSlot := some fridaySlot, bookingDate := some "2000-01-01" }

/-- A checkout request for the Monday slot on a parseable date. -/
def validCheckoutBody : CheckoutBody :=
  { timeSlot := some mondaySlot, bookingDate := some "2026-01-05" }

/-- The session the sample provider stub creates. -/
def sampleCreated : CreatedSession :=
  { id := "cs_test_123", url := "https://checkout.test/pay" }

/-- A provider stub that always creates the same session. -/
def sampleCreate : SessionParams → Option CreatedSession :=
  fun _ => some sampleCreated

/-- Everything a completed-session event must satisfy for the webhook to
persist a row: the two presence checks the controller makes on the
metadata plus the validations `booking.save()` enforces on the fields it
keeps (castable ObjectIds, a castable date). -/
def metadataComplete (parseDate : String → Option ℤ) (s : StripeSession) :
    Bool :=
  !strFalsy s.metadata.bookingDate && !strFalsy s.metadata.timeSlotDay &&
  (match s.metadata.trainerId with
   | some t => isValidObjectId t
   | none => false) &&
  (match s.metadata.userId with
   | some u => isValidObjectId u
   | none => false) &&
  (match s.metadata.bookingDate with
   | some bd => (parseDate bd).isSome
   | none => false)

/-- Frontend `getAvailableDates` (`SidePanel.jsx` lines 87–112): starting
from the day after `today` and up to the horizon end `endD` (in the
source, `today` with `setMonth(+3)`), keep the days whose weekday name
is among the available days of the trainer. -/
def getAvailableDates (timeSlots : List TimeSlotBody) (today endD : Nat) :
    List Nat :=
  let availableDays := getAvailableDays timeSlots
  if availableDays.isEmpty then []
  else
    (List.range' (today + 1) (endD - today)).filter
      (fun d => availableDays.contains (weekdayName d))

/-! ## Helper lemmas -/

/-- A successful save only reads the schema fields of its input: the
extra `sessionId` and `timeSlot` fields never influence the result. -/
theorem saveBooking_congr (parseDate : String → Option ℤ)
    (i1 i2 : BookingInput)
    (h1 : i1.trainer = i2.trainer) (h2 : i1.user = i2.user)
    (h3 : i1.ticketPrice = i2.ticketPrice)
    (h4 : i1.bookingDate = i2.bookingDate)
    (h5 : i1.status = i2.status) (h6 : i1.isPaid = i2.isPaid) :
    saveBooking parseDate i1 = saveBooking parseDate i2 := by
  unfold saveBooking
  rw [h1, h2, h3, h4, h5, h6]

/-- Inverting a successful save: the persisted row copies the
`ticketPrice`, `status` and `isPaid` fields of the input document. -/
theorem saveBooking_some_fields (parseDate : String → Option ℤ)
    (inp : BookingInput) (row : BookingRow)
    (h : saveBooking parseDate inp = some row) :
    row.ticketPrice = inp.ticketPrice ∧ row.status = inp.status ∧
      row.isPaid = inp.isPaid := by
  unfold saveBooking at h
  rcases htr : inp.trainer with _ | t
  · rw [htr] at h; simp at h
  rcases hus : inp.user with _ | u
  · rw [htr, hus] at h; simp at h
  rcases hds : inp.bookingDate with _ | ds
  · rw [htr, hus, hds] at h; simp at h
  rw [htr, hus, hds] at h
  simp at h
  obtain ⟨hcond, hm⟩ := h
  split at hm
  · simp at hm
    rw [← hm]
    exact ⟨rfl, rfl, rfl⟩
  · simp at hm

/-- If a save of the webhook document succeeds, all completeness checks
on the session metadata hold. -/
theorem metadataComplete_of_save (parseDate : String → Option ℤ)
    (s : StripeSession) (row : BookingRow)
    (hbd : strFalsy s.metadata.bookingDate = false)
    (htsd : strFalsy s.metadata.timeSlotDay = false)
    (h : saveBooking parseDate (mkBookingInput s) = some row) :
    metadataComplete parseDate s = true := by
  obtain ⟨sid, samt, mmeta⟩ := s
  obtain ⟨mtr, mus, mbd, mtsd, mtss, mtse⟩ := mmeta
  unfold saveBooking mkBookingInput at h
  unfold metadataComplete
  dsimp only at h hbd htsd ⊢
  rw [hbd, htsd]
  rcases mtr with _ | t
  · simp at h
  rcases mus with _ | u
  · simp at h
  rcases mbd with _ | ds
  · simp at h
  simp at h
  obtain ⟨hcond, hm⟩ := h
  split at hm
  · rename_i ms hp
    simp [hp, hcond.1.1.1, hcond.1.1.2]
  · simp at hm

/-! ## Claim theorems -/

/-- C2 (authenticity gate): whenever signature verification of the raw
body fails — for any payload bytes, any header, any prior ledger — the
webhook handler responds HTTP 400 with no acknowledgement and the
Booking collection is unchanged; the typed event is never consulted. -/
theorem webhook_auth_gate
    (verify : String → Option String → Option StripeEvent)
    (parseDate : String → Option ℤ) (body : String) (sig : Option String)
    (bookings : List BookingRow)
    (h : verify body sig = none) :
    handleStripeWebhook verify parseDate body sig bookings =
      { status := 400, received := false, bookings := bookings } := by
  unfold handleStripeWebhook
  rw [h]

/-- Witness for C2: a tampered signature header on a known body is
rejected with 400 and an empty ledger stays empty. -/
theorem webhook_auth_gate_witness :
    handleStripeWebhook sampleVerify sampleParseDate "raw-body-1"
      (some "t=1,v1=evil") [] =
      { status := 400, received := false, bookings := [] } :=
  webhook_auth_gate sampleVerify sampleParseDate "raw-body-1"
    (some "t=1,v1=evil") [] (by decide)

/-- C6 (event filtering): an authenticated event of any type other than
`checkout.session.completed` is acknowledged with `{received: true}` and
leaves the Booking collection unchanged; conversely, any invocation that
changes the collection was carrying a `checkout.session.completed`
event. -/
theorem webhook_event_filter
    (verify : String → Option String → Option StripeEvent)
    (parseDate : String → Option ℤ) (body : String) (sig : Option String)
    (bookings : List BookingRow) (event : StripeEvent)
    (hv : verify body sig = some event) :
    (event.type ≠ "checkout.session.completed" →
      handleStripeWebhook verify parseDate body sig bookings =
        { status := 200, received := true, bookings := bookings }) ∧
    ((handleStripeWebhook verify parseDate body sig bookings).bookings ≠
        bookings →
      event.type = "checkout.session.completed") := by
  have hw : handleStripeWebhook verify parseDate body sig bookings =
      processEvent parseDate event bookings := by
    unfold handleStripeWebhook
    rw [hv]
  constructor
  · intro ht
    rw [hw]
    unfold processEvent
    rw [if_neg ht]
  · intro hb
    by_contra ht
    apply hb
    rw [hw]
    unfold processEvent
    rw [if_neg ht]

/-- Witness for C6: an authenticated `payment_intent.created` event is
acknowledged and an existing one-row ledger is untouched. -/
theorem webhook_event_filter_witness :
    handleStripeWebhook sampleVerify sampleParseDate "raw-body-3"
      (some goodSig) [sampleRow] =
      { status := 200, received := true, bookings := [sampleRow] } :=
  (webhook_event_filter sampleVerify sampleParseDate "raw-body-3"
    (some goodSig) [sampleRow] sampleOtherEvent (by decide)).1 (by decide)

/-- C4 (issuer frame property): `getCheckoutSession` never writes the
database — in particular the Booking collection is unchanged — on every
path: missing trainer or user, missing body fields, provider failure,
and success alike. -/
theorem issuer_frame (createSession : SessionParams → Option CreatedSession)
    (db : DB) (trainerId reqUserId : String) (body : CheckoutBody) :
    (getCheckoutSession createSession db trainerId reqUserId body).2 = db ∧
    (getCheckoutSession createSession db trainerId reqUserId body).2.bookings
      = db.bookings := by
  have h : (getCheckoutSession createSession db trainerId reqUserId body).2
      = db := by
    unfold getCheckoutSession
    (repeat' split) <;> rfl
  exact ⟨h, by rw [h]⟩

/-- C5 (malformed-metadata rejection): for an authenticated
`checkout.session.completed` event, incomplete or malformed metadata
(missing or empty `bookingDate` or `timeSlotDay`, an id that does not
cast to `ObjectId`, an unparseable date) yields a non-2xx response with
no acknowledgement and an unchanged Booking collection; and on every
path the commit is all-or-nothing — the collection is either unchanged
or extended by exactly the one complete row the save produced. -/
theorem webhook_malformed_metadata
    (verify : String → Option String → Option StripeEvent)
    (parseDate : String → Option ℤ) (body : String) (sig : Option String)
    (bookings : List BookingRow) (event : StripeEvent)
    (hv : verify body sig = some event)
    (ht : event.type = "checkout.session.completed") :
    (metadataComplete parseDate event.session = false →
      (handleStripeWebhook verify parseDate body sig bookings).received = false ∧
      400 ≤ (handleStripeWebhook verify parseDate body sig bookings).status ∧
      (handleStripeWebhook verify parseDate body sig bookings).bookings =
        bookings) ∧
    ((handleStripeWebhook verify parseDate body sig bookings).bookings =
        bookings ∨
      ∃ row, saveBooking parseDate (mkBookingInput event.session) = some row ∧
        (handleStripeWebhook verify parseDate body sig bookings).bookings =
          bookings ++ [row]) := by
  have hw : handleStripeWebhook verify parseDate body sig bookings =
      processEvent parseDate event bookings := by
    unfold handleStripeWebhook
    rw [hv]
  rw [hw]
  unfold processEvent
  rw [if_pos ht]
  constructor
  · intro hm
    split
    · exact ⟨rfl, by norm_num, rfl⟩
    · rename_i hfal
      rcases hs : saveBooking parseDate (mkBookingInput event.session)
          with _ | row
      · simp [hs]
      · exfalso
        simp at hfal
        have hc := metadataComplete_of_save parseDate event.session row
          hfal.1 hfal.2 hs
        rw [hc] at hm
        cases hm
  · split
    · left; rfl
    · rcases hs : saveBooking parseDate (mkBookingInput event.session)
          with _ | row
      · left; simp [hs]
      · right; exact ⟨row, rfl, by simp [hs]⟩

/-- Witness for C5: an authentic completed event whose metadata lacks
`timeSlotDay` is rejected and an empty ledger stays empty. -/
theorem webhook_malformed_metadata_witness :
    (handleStripeWebhook sampleVerify sampleParseDate "raw-body-4"
      (some goodSig) []).received = false ∧
    400 ≤ (handleStripeWebhook sampleVerify sampleParseDate "raw-body-4"
      (some goodSig) []).status ∧
    (handleStripeWebhook sampleVerify sampleParseDate "raw-body-4"
      (some goodSig) []).bookings = [] :=
  (webhook_malformed_metadata sampleVerify sampleParseDate "raw-body-4"
    (some goodSig) [] badEvent (by decide) (by decide)).1 (by decide)

/-- C1 amended (no idempotence in the code): delivering the same
authenticated `checkout.session.completed` event `n` times appends `n`
identical Booking rows — one insert per delivery, each acknowledged with
success; no deduplication by session id exists, and the rows do not
record the session id. -/
theorem webhook_replay_appends
    (verify : String → Option String → Option StripeEvent)
    (parseDate : String → Option ℤ) (body : String) (sig : Option String)
    (event : StripeEvent) (row : BookingRow)
    (hv : verify body sig = some event)
    (ht : event.type = "checkout.session.completed")
    (hbd : strFalsy event.session.metadata.bookingDate = false)
    (htsd : strFalsy event.session.metadata.timeSlotDay = false)
    (hs : saveBooking parseDate (mkBookingInput event.session) = some row) :
    ∀ (n : Nat) (bookings : List BookingRow),
      replayWebhook verify parseDate body sig n bookings =
        bookings ++ List.replicate n row := by
  have hstep : ∀ bs, handleStripeWebhook verify parseDate body sig bs =
      { status := 200, received := true, bookings := bs ++ [row] } := by
    intro bs
    have hw : handleStripeWebhook verify parseDate body sig bs =
        processEvent parseDate event bs := by
      unfold handleStripeWebhook
      rw [hv]
    rw [hw]
    unfold processEvent
    rw [if_pos ht, hbd, htsd]
    simp [hs]
  intro n
  induction n with
  | zero => intro bs; simp [replayWebhook]
  | succ k ih =>
    intro bs
    unfold replayWebhook
    rw [hstep bs, ih (bs ++ [row])]
    simp [List.replicate_succ]

/-- Counterexample for C1 as stated: two deliveries of the same
authenticated success event leave two Booking rows in the ledger, not
exactly one. -/
theorem webhook_replay_counterexample :
    (replayWebhook sampleVerify sampleParseDate "raw-body-1" (some goodSig)
      2 []).length = 2 ∧
    ¬((replayWebhook sampleVerify sampleParseDate "raw-body-1" (some goodSig)
      2 []).length = 1) := by
  decide

/-- Witness for the amended C1: three deliveries of the sample event
append three copies of the sample row. -/
theorem webhook_replay_appends_witness :
    replayWebhook sampleVerify sampleParseDate "raw-body-1" (some goodSig)
      3 [] = [] ++ List.replicate 3 sampleRow :=
  webhook_replay_appends sampleVerify sampleParseDate "raw-body-1"
    (some goodSig) sampleEvent1 sampleRow (by decide) (by decide) (by decide)
    (by decide) (by decide) 3 []

/-- C3 amended (no conflict detection or flagging in the code): an
authenticated `checkout.session.completed` event with complete metadata
appends its row unconditionally — the handler never consults the
existing Booking collection, performs no conflict re-check, and the
schema stores no conflict marker; the new booking is recorded (never
silently dropped) whatever competing rows already exist. -/
theorem webhook_records_unconditionally
    (verify : String → Option String → Option StripeEvent)
    (parseDate : String → Option ℤ) (body : String) (sig : Option String)
    (bookings : List BookingRow) (event : StripeEvent) (row : BookingRow)
    (hv : verify body sig = some event)
    (ht : event.type = "checkout.session.completed")
    (hbd : strFalsy event.session.metadata.bookingDate = false)
    (htsd : strFalsy event.session.metadata.timeSlotDay = false)
    (hs : saveBooking parseDate (mkBookingInput event.session) = some row) :
    handleStripeWebhook verify parseDate body sig bookings =
      { status := 200, received := true, bookings := bookings ++ [row] } := by
  have hw : handleStripeWebhook verify parseDate body sig bookings =
      processEvent parseDate event bookings := by
    unfold handleStripeWebhook
    rw [hv]
  rw [hw]
  unfold processEvent
  rw [if_pos ht, hbd, htsd]
  simp [hs]

/-- Counterexample for C3 as stated: success events for two different
external sessions with the same trainer/user/date/slot leave two
identical rows, both with status `approved` — active duplicates for the
tuple with nothing distinguishing or flagging either row. -/
theorem webhook_conflict_counterexample :
    (handleStripeWebhook sampleVerify sampleParseDate "raw-body-2"
      (some goodSig)
      (handleStripeWebhook sampleVerify sampleParseDate "raw-body-1"
        (some goodSig) []).bookings).bookings = [sampleRow, sampleRow] ∧
    sampleRow.status = "approved" := by
  decide

/-- Witness for the amended C3: with a competing approved row already in
the ledger, the event for a different session is still recorded. -/
theorem webhook_records_unconditionally_witness :
    handleStripeWebhook sampleVerify sampleParseDate "raw-body-2"
      (some goodSig) [sampleRow] =
      { status := 200, received := true,
        bookings := [sampleRow] ++ [sampleRow] } :=
  webhook_records_unconditionally sampleVerify sampleParseDate "raw-body-2"
    (some goodSig) [sampleRow] sampleEvent2 sampleRow (by decide) (by decide)
    (by decide) (by decide) (by decide)

/-- C9 (persisted rows carry no session identifier): the reconciler
result is entirely determined by the event type, metadata, and captured
amount — two events differing only in their external session id produce
identical responses and identical ledgers, so a replay of a session is
indistinguishable in the ledger from a first delivery. -/
theorem schema_drops_session_id (parseDate : String → Option ℤ)
    (bookings : List BookingRow) (e1 e2 : StripeEvent)
    (hty : e1.type = e2.type)
    (hmd : e1.session.metadata = e2.session.metadata)
    (ham : e1.session.amount_total = e2.session.amount_total) :
    processEvent parseDate e1 bookings = processEvent parseDate e2 bookings := by
  have hsave : saveBooking parseDate (mkBookingInput e1.session) =
      saveBooking parseDate (mkBookingInput e2.session) := by
    apply saveBooking_congr <;> simp [mkBookingInput, hmd, ham]
  unfold processEvent
  rw [hty, hmd, hsave]

/-- Witness for C9: the two sample sessions differ only in id and are
processed identically. -/
theorem schema_drops_session_id_witness :
    processEvent sampleParseDate sampleEvent1 [] =
      processEvent sampleParseDate sampleEvent2 [] :=
  schema_drops_session_id sampleParseDate [] sampleEvent1 sampleEvent2
    (by decide) (by decide) (by decide)

/-- C7 amended (agreement only inside the window): a date is generated
by `getAvailableDates` exactly when `isDateAvailable` accepts it AND it
lies strictly after `today` and at most at the horizon end; in
particular every generated date is in the window, and inside the window
the generator and the predicate never disagree. -/
theorem availability_window_agreement (timeSlots : List TimeSlotBody)
    (today endD d : Nat) :
    d ∈ getAvailableDates timeSlots today endD ↔
      (isDateAvailable timeSlots d = true ∧ today < d ∧ d ≤ endD) := by
  unfold getAvailableDates isDateAvailable
  by_cases he : (getAvailableDays timeSlots).isEmpty
  · simp [he]
  · simp only [he, if_false, Bool.false_eq_true]
    rw [List.mem_filter, List.mem_range'_1]
    constructor
    · rintro ⟨⟨h1, h2⟩, h3⟩
      exact ⟨h3, by omega, by omega⟩
    · rintro ⟨h3, h1, h2⟩
      exact ⟨⟨by omega, by omega⟩, h3⟩

/-- Counterexample for C7 as stated: for a Monday-only trainer, day 18
(a Monday) satisfies `isDateAvailable`, yet it is not in the sequence
generated over the window ending at day 7 — the unrestricted
equivalence between predicate and generator fails. -/
theorem availability_drift_counterexample :
    isDateAvailable [mondaySlot] 18 = true ∧
    ¬(18 ∈ getAvailableDates [mondaySlot] 0 7) := by
  decide

/-- C8 amended (the issuer validates only existence and presence):
`getCheckoutSession` succeeds exactly when the trainer and user exist,
the body carries a `timeSlot` object and a nonempty `bookingDate`, and
the provider call succeeds; no slot-ownership, availability, future-date
or conflict check takes part in the outcome. -/
theorem issuer_success_characterization
    (createSession : SessionParams → Option CreatedSession) (db : DB)
    (trainerId reqUserId : String) (body : CheckoutBody) :
    (getCheckoutSession createSession db trainerId reqUserId body).1.status
        = 200 ↔
      ∃ t u ts bd c, findTrainer db trainerId = some t ∧
        findUser db reqUserId = some u ∧ body.timeSlot = some ts ∧
        body.bookingDate = some bd ∧ ¬(bd = "") ∧
        createSession (mkSessionParams t u ts bd) = some c := by
  unfold getCheckoutSession
  rcases hT : findTrainer db trainerId with _ | t
  · simp [hT]
  rcases hU : findUser db reqUserId with _ | u
  · simp [hT, hU]
  rcases hts : body.timeSlot with _ | ts
  · simp [hT, hU, hts]
  rcases hbd : body.bookingDate with _ | bd
  · simp [hT, hU, hts, hbd]
  by_cases hbe : bd = ""
  · simp [hT, hU, hts, hbd, hbe, strFalsy]
  · rcases hc : createSession (mkSessionParams t u ts bd) with _ | c
    · simp [hT, hU, hts, hbd, hbe, strFalsy, hc]
    · simp [hT, hU, hts, hbd, hbe, strFalsy, hc]

/-- Counterexample for C8 as stated: a request whose slot the trainer
does not offer and whose date is long past is accepted — the checkout
session is created and returned with status 200. -/
theorem issuer_no_validation_counterexample :
    (sampleTrainer.timeSlots.contains fridaySlot) = false ∧
    (getCheckoutSession sampleCreate sampleDB oidTrainer oidUser
      invalidCheckoutBody).1.status = 200 ∧
    (getCheckoutSession sampleCreate sampleDB oidTrainer oidUser
      invalidCheckoutBody).1.sessionId = some "cs_test_123" := by
  decide

/-- C10 (price source of truth): when the issuer creates a session for
trainer `t`, the provider captures `amount_total = Math.round(t.ticketPrice
* 100)` fixed at intent time; the webhook then records `ticketPrice` as
exactly `(amount_total / 100).toString()` — the reconciler reads no
trainer record, so a rate change between intent and confirmation cannot
alter the recorded price. -/
theorem booking_price_source
    (createSession : SessionParams → Option CreatedSession)
    (parseDate : String → Option ℤ) (db : DB) (trainerId reqUserId : String)
    (body : CheckoutBody) (t : TrainerRec) (u : UserRec) (ts : TimeSlotBody)
    (bd : String) (c : CreatedSession) (bookings : List BookingRow)
    (row : BookingRow)
    (hT : findTrainer db trainerId = some t)
    (hU : findUser db reqUserId = some u)
    (hts : body.timeSlot = some ts) (hbd : body.bookingDate = some bd)
    (hbe : ¬(bd = ""))
    (hc : createSession (mkSessionParams t u ts bd) = some c)
    (htsd : strFalsy ts.day = false)
    (hs : saveBooking parseDate
      (mkBookingInput (stripeSessionOf (mkSessionParams t u ts bd) c.id)) =
      some row) :
    (getCheckoutSession createSession db trainerId reqUserId body).1 =
      { status := 200, success := true, sessionId := some c.id,
        sessionUrl := some c.url } ∧
    processEvent parseDate
      { type := "checkout.session.completed"
        session := stripeSessionOf (mkSessionParams t u ts bd) c.id }
      bookings =
      { status := 200, received := true, bookings := bookings ++ [row] } ∧
    row.ticketPrice = centsToJsString
      (stripeSessionOf (mkSessionParams t u ts bd) c.id).amount_total ∧
    (stripeSessionOf (mkSessionParams t u ts bd) c.id).amount_total =
      jsRound (t.ticketPrice * 100) := by
  refine ⟨?_, ?_, ?_, ?_⟩
  · unfold getCheckoutSession
    rw [hT, hU]
    simp [hts, hbd, strFalsy, hbe, hc]
  · unfold processEvent
    rw [if_pos rfl]
    have h1 : strFalsy (stripeSessionOf (mkSessionParams t u ts bd)
        c.id).metadata.bookingDate = false := by
      simp [stripeSessionOf, mkSessionParams, strFalsy, hbe]
    have h2 : strFalsy (stripeSessionOf (mkSessionParams t u ts bd)
        c.id).metadata.timeSlotDay = false := by
      simp [stripeSessionOf, mkSessionParams]
      exact htsd
    rw [h1, h2]
    simp [hs]
  · exact (saveBooking_some_fields parseDate _ row hs).1
  · simp [stripeSessionOf, mkSessionParams]

/-- Witness for C10: the sample trainer rate 99.5 gives a captured
amount of 9950 cents and a recorded booking price string 99.5. -/
theorem booking_price_source_witness :
    (getCheckoutSession sampleCreate sampleDB oidTrainer oidUser
      validCheckoutBody).1 =
      { status := 200, success := true, sessionId := some sampleCreated.id,
        sessionUrl := some sampleCreated.url } ∧
    processEvent sampleParseDate
      { type := "checkout.session.completed"
        session := stripeSessionOf
          (mkSessionParams sampleTrainer sampleUser mondaySlot "2026-01-05")
          sampleCreated.id }
      [] =
      { status := 200, received := true, bookings := [] ++ [sampleRow] } ∧
    sampleRow.ticketPrice = centsToJsString
      (stripeSessionOf
        (mkSessionParams sampleTrainer sampleUser mondaySlot "2026-01-05")
        sampleCreated.id).amount_total ∧
    (stripeSessionOf
      (mkSessionParams sampleTrainer sampleUser mondaySlot "2026-01-05")
      sampleCreated.id).amount_total =
      jsRound (sampleTrainer.ticketPrice * 100) :=
  booking_price_source sampleCreate sampleParseDate sampleDB oidTrainer
    oidUser validCheckoutBody sampleTrainer sampleUser mondaySlot
    "2026-01-05" sampleCreated [] sampleRow rfl rfl
    (by decide) (by decide) (by decide) rfl (by decide)
    (by
      have hamt : (stripeSessionOf
          (mkSessionParams sampleTrainer sampleUser mondaySlot "2026-01-05")
          sampleCreated.id).amount_total = 9950 := by
        norm_num [stripeSessionOf, mkSessionParams, sampleTrainer, jsRound]
      simp only [mkBookingInput, hamt]
      decide)
